import Mathlib

/-!
Verification of the ticket-tracker repository: a shallow embedding of the
ticket store (create / update / delete / rate), the edit-modal state of the
`App` component, and the counter component, together with theorems settling
the specified properties.
-/

/-- Ticket status, the closed three-value enumeration of the source
(Created, Under Assistance, Completed). -/
inductive Status where
  | Created
  | UnderAssistance
  | Completed
deriving DecidableEq

/-- A ticket, mirroring the `Ticket` interface of the source: id, title,
description, status and an optional numeric rating. -/
structure Ticket where
  id : String
  title : String
  description : String
  status : Status
  rating : Option Int
deriving DecidableEq

/-- The seed state of the store: the three example tickets the `tickets`
state is initialized with in the source. -/
def seedTickets : List Ticket :=
  [ { id := "1", title := "Login Issue",
      description := "User cannot log in with email.",
      status := Status.Created, rating := none },
    { id := "2", title := "Payment Bug",
      description := "Stripe integration failing on iOS.",
      status := Status.UnderAssistance, rating := none },
    { id := "3", title := "UI Feedback",
      description := "Improve dashboard layout.",
      status := Status.Completed, rating := some 4 } ]

/-- The editing branch of `saveTicket`: map over the tickets, and on the one
whose id equals `currentId` replace title, description and status, keeping
the rating only when the new status is Completed. -/
def saveTicketEdit (currentId title description : String) (status : Status)
    (tickets : List Ticket) : List Ticket :=
  tickets.map (fun t =>
    if t.id = currentId then
      { t with title := title, description := description, status := status,
               rating := if status = Status.Completed then t.rating else none }
    else t)

/-- The creation branch of `saveTicket`: append a new ticket whose id is the
clock value `Date.now().toString()` (passed here as `now`), with no rating. -/
def saveTicketCreate (now : Nat) (title description : String) (status : Status)
    (tickets : List Ticket) : List Ticket :=
  tickets ++ [{ id := toString now, title := title, description := description,
                status := status, rating := none }]

/-- `deleteTicket` of the source: keep the tickets whose id differs. -/
def deleteTicket (id : String) (tickets : List Ticket) : List Ticket :=
  tickets.filter (fun t => t.id ≠ id)

/-- `updateRating` of the source: map over the tickets and set the rating of
each matching one, with no condition on the status and no range check. -/
def updateRating (id : String) (newRating : Int) (tickets : List Ticket) :
    List Ticket :=
  tickets.map (fun t => if t.id = id then { t with rating := some newRating } else t)

/-- The star values the `Rating` component iterates over; each star press
calls `onChange(star)`, so these are the only values the in-app control
ever passes to `updateRating`. -/
def ratingStarValues : List Int := [1, 2, 3, 4, 5]

/-- A store operation, for stating properties over arbitrary sequences of
calls. `create` carries the clock value the source reads from `Date.now()`. -/
inductive StoreOp where
  | create (now : Nat) (title description : String) (status : Status)
  | update (id title description : String) (status : Status)
  | del (id : String)
  | rate (id : String) (v : Int)

/-- Apply one store operation. -/
def applyOp (op : StoreOp) (tickets : List Ticket) : List Ticket :=
  match op with
  | StoreOp.create now title description status =>
      saveTicketCreate now title description status tickets
  | StoreOp.update id title description status =>
      saveTicketEdit id title description status tickets
  | StoreOp.del id => deleteTicket id tickets
  | StoreOp.rate id v => updateRating id v tickets

/-- Apply a sequence of store operations, left to right. -/
def applyOps (ops : List StoreOp) (tickets : List Ticket) : List Ticket :=
  ops.foldl (fun ts op => applyOp op ts) tickets

/-- The core invariant claimed by the spec: a present rating implies
Completed status, for every ticket in the store. -/
def storeInvariant (tickets : List Ticket) : Prop :=
  ∀ t ∈ tickets, t.rating.isSome = true → t.status = Status.Completed

instance (tickets : List Ticket) : Decidable (storeInvariant tickets) := by
  unfold storeInvariant; infer_instance

/-- The state of the `App` component: the ticket list plus the modal and
edit-session fields. -/
structure AppState where
  tickets : List Ticket
  modalVisible : Bool
  isEditing : Bool
  currentId : Option String
  title : String
  description : String
  status : Status
deriving DecidableEq

/-- JS truthiness of the `currentId` value (`string | null`): null and the
empty string are falsy. -/
def currentIdTruthy : Option String → Bool
  | some c => c ≠ ""
  | none => false

/-- `saveTicket` of the source, on the full component state: the edit branch
when `isEditing && currentId` holds, the create branch otherwise; either way
the modal is closed. -/
def saveTicket (now : Nat) (s : AppState) : AppState :=
  if s.isEditing && currentIdTruthy s.currentId then
    { s with tickets := saveTicketEdit (s.currentId.getD "") s.title
               s.description s.status s.tickets,
             modalVisible := false }
  else
    { s with tickets := saveTicketCreate now s.title s.description s.status
               s.tickets,
             modalVisible := false }

/-- `openModal(ticket)` of the source: start an edit session populated from
the ticket and show the modal. -/
def openModalEdit (t : Ticket) (s : AppState) : AppState :=
  { s with isEditing := true, currentId := some t.id, title := t.title,
           description := t.description, status := t.status,
           modalVisible := true }

/-- `openModal()` of the source with no argument: start a blank create
session and show the modal. -/
def openModalCreate (s : AppState) : AppState :=
  { s with isEditing := false, currentId := none, title := "",
           description := "", status := Status.Created,
           modalVisible := true }

/-- The Cancel button of the modal: `setModalVisible(false)` and nothing
else. -/
def cancel (s : AppState) : AppState :=
  { s with modalVisible := false }

/-- The counter component: initial value of `count`. -/
def counterInit : Int := 0

/-- The increment button: `setCount(count + 1)`. -/
def increment (count : Int) : Int := count + 1

/-- The decrement button: `setCount(count - 1)`. -/
def decrement (count : Int) : Int := count - 1

/-- The reset button: `setCount(0)`. -/
def resetCount (_count : Int) : Int := 0

/-- C8: the counter starts at 0; increment adds exactly 1, decrement
subtracts exactly 1 with no lower bound (decrement from 0 yields -1), reset
sets the count to 0; and increment; increment; decrement; reset from 0
yields 0. -/
theorem counter_ops_spec :
    counterInit = 0 ∧
    (∀ c : Int, increment c = c + 1) ∧
    (∀ c : Int, decrement c = c - 1) ∧
    (∀ c : Int, resetCount c = 0) ∧
    decrement 0 = -1 ∧
    resetCount (decrement (increment (increment counterInit))) = 0 := by
  refine ⟨rfl, fun c => rfl, fun c => rfl, fun c => rfl, rfl, rfl⟩

theorem length_saveTicketEdit (i title description : String) (st : Status)
    (ts : List Ticket) :
    (saveTicketEdit i title description st ts).length = ts.length := by
  simp [saveTicketEdit]

theorem get_saveTicketEdit (i title description : String) (st : Status)
    (ts : List Ticket) (k : Nat) (hk : k < ts.length)
    (hk2 : k < (saveTicketEdit i title description st ts).length) :
    (saveTicketEdit i title description st ts).get ⟨k, hk2⟩ =
      if (ts.get ⟨k, hk⟩).id = i then
        { ts.get ⟨k, hk⟩ with
          title := title, description := description, status := st,
          rating := if st = Status.Completed then (ts.get ⟨k, hk⟩).rating
                    else none }
      else ts.get ⟨k, hk⟩ := by
  simp [saveTicketEdit, List.get_eq_getElem, List.getElem_map]

theorem length_updateRating (i : String) (v : Int) (ts : List Ticket) :
    (updateRating i v ts).length = ts.length := by
  simp [updateRating]

theorem get_updateRating (i : String) (v : Int) (ts : List Ticket) (k : Nat)
    (hk : k < ts.length) (hk2 : k < (updateRating i v ts).length) :
    (updateRating i v ts).get ⟨k, hk2⟩ =
      if (ts.get ⟨k, hk⟩).id = i then { ts.get ⟨k, hk⟩ with rating := some v }
      else ts.get ⟨k, hk⟩ := by
  simp [updateRating, List.get_eq_getElem, List.getElem_map]

/-- C2: for an id matching no ticket in the store, update, delete and rate
all leave the ordered collection exactly unchanged (and, being total
functions, cannot fail). -/
theorem unknown_id_noop (i title description : String) (st : Status) (v : Int)
    (ts : List Ticket) (h : ∀ t ∈ ts, t.id ≠ i) :
    saveTicketEdit i title description st ts = ts ∧
    deleteTicket i ts = ts ∧
    updateRating i v ts = ts := by
  refine ⟨?_, ?_, ?_⟩
  · calc saveTicketEdit i title description st ts
        = ts.map (fun t => t) := List.map_congr_left (fun t ht => by
          simp [h t ht])
      _ = ts := List.map_id' ts
  · exact List.filter_eq_self.mpr (fun t ht => by simp [h t ht])
  · calc updateRating i v ts
        = ts.map (fun t => t) := List.map_congr_left (fun t ht => by
          simp [h t ht])
      _ = ts := List.map_id' ts

/-- C2 witness: the three operations with the unknown id "99" leave the seed
store unchanged. -/
theorem unknown_id_noop_witness :
    saveTicketEdit "99" "X" "Y" Status.Completed seedTickets = seedTickets ∧
    deleteTicket "99" seedTickets = seedTickets ∧
    updateRating "99" 3 seedTickets = seedTickets :=
  unknown_id_noop "99" "X" "Y" Status.Completed 3 seedTickets (by decide)

/-- C4: create appends exactly one ticket at the end, every pre-existing
position is unchanged, and the new ticket carries the given title,
description and status with an absent rating. -/
theorem create_appends (now : Nat) (title description : String) (st : Status)
    (ts : List Ticket) :
    (saveTicketCreate now title description st ts).length = ts.length + 1 ∧
    (∀ k, k < ts.length →
      (saveTicketCreate now title description st ts)[k]? = ts[k]?) ∧
    (saveTicketCreate now title description st ts)[ts.length]? =
      some { id := toString now, title := title, description := description,
             status := st, rating := none } := by
  refine ⟨by simp [saveTicketCreate], fun k hk => ?_, ?_⟩
  · simp [saveTicketCreate, List.getElem?_append_left hk]
  · simp [saveTicketCreate]

/-- C4 witness: creating from the seed store yields length 4, keeps position
0 unchanged and puts the new rating-free ticket at position 3. -/
theorem create_appends_witness :
    (saveTicketCreate 100 "A" "B" Status.Created seedTickets).length = 3 + 1 ∧
    (saveTicketCreate 100 "A" "B" Status.Created seedTickets)[0]? =
      seedTickets[0]? ∧
    (saveTicketCreate 100 "A" "B" Status.Created seedTickets)[3]? =
      some { id := "100", title := "A", description := "B",
             status := Status.Created, rating := none } := by
  have h := create_appends 100 "A" "B" Status.Created seedTickets
  exact ⟨h.1, h.2.1 0 (by decide), h.2.2⟩

/-- C6: rate on a ticket present in the store sets its rating to the given
value in 1..5 and leaves its status untouched, with no requirement that the
status be Completed. -/
theorem rate_sets_rating (i : String) (v : Int) (ts : List Ticket) (k : Nat)
    (hk : k < ts.length) (hid : (ts.get ⟨k, hk⟩).id = i)
    (hv : 1 ≤ v ∧ v ≤ 5)
    (hk2 : k < (updateRating i v ts).length) :
    ((updateRating i v ts).get ⟨k, hk2⟩).rating = some v ∧
    ((updateRating i v ts).get ⟨k, hk2⟩).status = (ts.get ⟨k, hk⟩).status := by
  rw [get_updateRating i v ts k hk hk2, if_pos hid]
  exact ⟨rfl, rfl⟩

/-- C6 witness: rate("2", 3) on the seed store, whose ticket "2" has status
UnderAssistance, yields rating 3 and the status still UnderAssistance. -/
theorem rate_sets_rating_witness :
    ((updateRating "2" 3 seedTickets).get ⟨1, by decide⟩).rating = some 3 ∧
    ((updateRating "2" 3 seedTickets).get ⟨1, by decide⟩).status =
      Status.UnderAssistance := by
  have h := rate_sets_rating "2" 3 seedTickets 1 (by decide) (by decide)
    ⟨by decide, by decide⟩ (by decide)
  exact ⟨h.1, h.2.trans (by decide)⟩

/-- C10: updateRating validates nothing about the value: any integer,
in-range or not, is stored verbatim on the matching ticket; and the star
control, the only in-app caller, only ever passes the values 1 through 5. -/
theorem rate_no_range_check (i : String) (v : Int) (ts : List Ticket) (k : Nat)
    (hk : k < ts.length) (hid : (ts.get ⟨k, hk⟩).id = i)
    (hk2 : k < (updateRating i v ts).length) :
    ((updateRating i v ts).get ⟨k, hk2⟩).rating = some v ∧
    (∀ w ∈ ratingStarValues, 1 ≤ w ∧ w ≤ 5) := by
  rw [get_updateRating i v ts k hk hk2, if_pos hid]
  exact ⟨rfl, by decide⟩

/-- C10 witness: the out-of-range value -7 is stored verbatim on ticket "1"
of the seed store, and the star values are all within 1..5. -/
theorem rate_no_range_check_witness :
    ((updateRating "1" (-7) seedTickets).get ⟨0, by decide⟩).rating =
      some (-7) ∧
    (∀ w ∈ ratingStarValues, 1 ≤ w ∧ w ≤ 5) :=
  rate_no_range_check "1" (-7) seedTickets 0 (by decide) (by decide)
    (by decide)

/-- C3: when the store holds exactly one ticket with the given id, update
rewrites title, description and status in place at that position, keeps the
length and every other position unchanged, clears the rating when the new
status is not Completed, and keeps the rating verbatim (never inventing one)
when it is Completed. -/
theorem update_in_place (i title description : String) (st : Status)
    (ts : List Ticket) (k : Nat) (hk : k < ts.length)
    (hid : (ts.get ⟨k, hk⟩).id = i)
    (huniq : ∀ j, ∀ hj : j < ts.length, (ts.get ⟨j, hj⟩).id = i → j = k) :
    (saveTicketEdit i title description st ts).length = ts.length ∧
    (∀ hk2 : k < (saveTicketEdit i title description st ts).length,
      (saveTicketEdit i title description st ts).get ⟨k, hk2⟩ =
        { ts.get ⟨k, hk⟩ with
          title := title, description := description, status := st,
          rating := if st = Status.Completed then (ts.get ⟨k, hk⟩).rating
                    else none }) ∧
    (∀ j, ∀ hj : j < ts.length, j ≠ k →
      ∀ hj2 : j < (saveTicketEdit i title description st ts).length,
        (saveTicketEdit i title description st ts).get ⟨j, hj2⟩ =
          ts.get ⟨j, hj⟩) := by
  refine ⟨length_saveTicketEdit i title description st ts, ?_, ?_⟩
  · intro hk2
    rw [get_saveTicketEdit i title description st ts k hk hk2, if_pos hid]
  · intro j hj hne hj2
    rw [get_saveTicketEdit i title description st ts j hj hj2,
      if_neg (fun hid2 => hne (huniq j hj hid2))]

/-- C3 witness: update("3", "X", "Y", UnderAssistance) on the seed store,
whose ticket "3" was Completed with rating 4, rewrites position 2 with the
rating cleared and leaves position 0 untouched. -/
theorem update_in_place_witness :
    (saveTicketEdit "3" "X" "Y" Status.UnderAssistance seedTickets).length =
      seedTickets.length ∧
    (saveTicketEdit "3" "X" "Y" Status.UnderAssistance seedTickets).get
        ⟨2, by decide⟩ =
      { id := "3", title := "X", description := "Y",
        status := Status.UnderAssistance, rating := none } ∧
    (saveTicketEdit "3" "X" "Y" Status.UnderAssistance seedTickets).get
        ⟨0, by decide⟩ = seedTickets.get ⟨0, by decide⟩ := by
  have h := update_in_place "3" "X" "Y" Status.UnderAssistance seedTickets 2
    (by decide) (by decide) (by decide)
  exact ⟨h.1, (h.2.1 (by decide)).trans (by decide),
    h.2.2 0 (by decide) (by decide) (by decide)⟩

/-- C9: the by-id operations act on every ticket whose id matches, not just
one: update rewrites every matching position, rate sets the rating at every
matching position, and delete removes exactly the matching tickets. -/
theorem byid_ops_hit_all_matches (i title description : String) (st : Status)
    (v : Int) (ts : List Ticket) :
    (∀ j, ∀ hj : j < ts.length, (ts.get ⟨j, hj⟩).id = i →
      (∀ hj2 : j < (saveTicketEdit i title description st ts).length,
        (saveTicketEdit i title description st ts).get ⟨j, hj2⟩ =
          { ts.get ⟨j, hj⟩ with
            title := title, description := description, status := st,
            rating := if st = Status.Completed then (ts.get ⟨j, hj⟩).rating
                      else none }) ∧
      (∀ hj3 : j < (updateRating i v ts).length,
        ((updateRating i v ts).get ⟨j, hj3⟩).rating = some v)) ∧
    (∀ t ∈ deleteTicket i ts, t.id ≠ i) ∧
    (∀ t ∈ ts, t.id ≠ i → t ∈ deleteTicket i ts) := by
  refine ⟨fun j hj hid => ⟨fun hj2 => ?_, fun hj3 => ?_⟩, fun t ht => ?_,
    fun t ht hne => ?_⟩
  · rw [get_saveTicketEdit i title description st ts j hj hj2, if_pos hid]
  · rw [get_updateRating i v ts j hj hj3, if_pos hid]
  · have h := List.of_mem_filter ht
    simpa using h
  · exact List.mem_filter.mpr ⟨ht, by simpa using hne⟩

/-- A store with two distinct tickets sharing the id "7", as clock-collision
creates can produce. -/
def dupStore : List Ticket :=
  [ { id := "7", title := "A", description := "a",
      status := Status.Completed, rating := some 2 },
    { id := "7", title := "B", description := "b",
      status := Status.Created, rating := none } ]

/-- C9 witness: on a store with two tickets of id "7", rate("7", 5) sets the
rating at both positions, and delete("7") leaves no ticket with id "7". -/
theorem byid_ops_hit_all_matches_witness :
    ((updateRating "7" 5 dupStore).get ⟨0, by decide⟩).rating = some 5 ∧
    ((updateRating "7" 5 dupStore).get ⟨1, by decide⟩).rating = some 5 ∧
    (∀ t ∈ deleteTicket "7" dupStore, t.id ≠ "7") := by
  have h := byid_ops_hit_all_matches "7" "X" "Y" Status.Created 5 dupStore
  exact ⟨(h.1 0 (by decide) (by decide)).2 (by decide),
    (h.1 1 (by decide) (by decide)).2 (by decide), h.2.1⟩

/-- C7: Cancel closes the modal and leaves the ticket store exactly as it
was; the leftover session fields are dead state, since reopening the modal
(either way) reinitializes every session field, so two states agreeing on
tickets are indistinguishable after cancel plus reopen. -/
theorem cancel_frame (s : AppState) :
    (cancel s).tickets = s.tickets ∧
    (cancel s).modalVisible = false ∧
    (∀ s2 : AppState, s2.tickets = s.tickets →
      openModalCreate (cancel s) = openModalCreate s2 ∧
      ∀ t : Ticket, openModalEdit t (cancel s) = openModalEdit t s2) := by
  refine ⟨rfl, rfl, fun s2 h2 => ⟨?_, fun t => ?_⟩⟩
  · cases s; cases s2
    simp_all [openModalCreate, cancel]
  · cases s; cases s2
    simp_all [openModalEdit, cancel]

/-- An open edit session over the seed store, for the C7 witness. -/
def demoOpenState : AppState :=
  { tickets := seedTickets, modalVisible := true, isEditing := true,
    currentId := some "1", title := "T", description := "D",
    status := Status.Completed }

/-- The same tickets under a different session, for the C7 witness. -/
def demoOtherState : AppState :=
  { tickets := seedTickets, modalVisible := false, isEditing := false,
    currentId := none, title := "", description := "",
    status := Status.Created }

/-- C7 witness: cancelling the demo session keeps the seed tickets, closes
the modal, and a subsequent open produces the same session as from any other
state with the same tickets. -/
theorem cancel_frame_witness :
    (cancel demoOpenState).tickets = demoOpenState.tickets ∧
    (cancel demoOpenState).modalVisible = false ∧
    openModalCreate (cancel demoOpenState) = openModalCreate demoOtherState := by
  have h := cancel_frame demoOpenState
  exact ⟨h.1, h.2.1, (h.2.2 demoOtherState (by decide)).1⟩

/-- C5 counterexample: two creates carrying the same clock value (two calls
within the same millisecond of `Date.now()`) append two tickets with the
identical id "100" to the seed store, so create does not allocate an id
distinct from every id already present. -/
theorem create_id_not_fresh :
    ¬ ((saveTicketCreate 100 "B" "b" Status.Created
        (saveTicketCreate 100 "A" "a" Status.Created seedTickets)).map
          (fun t => t.id)).Nodup := by decide

/-- C5 amended: no operation ever changes the id of an existing ticket
(update
and rate preserve the id sequence, delete only removes tickets), and create
appends the clock value as the new id; that id is fresh, and so keeps the
ids pairwise distinct, only when the clock value differs from every id
already in the store. -/
theorem ticket_ids_stable (i title description : String) (st : Status)
    (v : Int) (now : Nat) (ts : List Ticket) :
    ((saveTicketEdit i title description st ts).map (fun t => t.id) =
      ts.map (fun t => t.id)) ∧
    ((updateRating i v ts).map (fun t => t.id) = ts.map (fun t => t.id)) ∧
    (deleteTicket i ts).Sublist ts ∧
    ((saveTicketCreate now title description st ts).map (fun t => t.id) =
      ts.map (fun t => t.id) ++ [toString now]) ∧
    (toString now ∉ ts.map (fun t => t.id) →
      (ts.map (fun t => t.id)).Nodup →
      ((saveTicketCreate now title description st ts).map
        (fun t => t.id)).Nodup) := by
  refine ⟨?_, ?_, ?_, ?_, fun hfresh hnd => ?_⟩
  · unfold saveTicketEdit
    rw [List.map_map]
    exact List.map_congr_left (fun t ht => by
      by_cases h : t.id = i <;> simp [h])
  · unfold updateRating
    rw [List.map_map]
    exact List.map_congr_left (fun t ht => by
      by_cases h : t.id = i <;> simp [h])
  · exact List.filter_sublist ts
  · simp [saveTicketCreate]
  · rw [saveTicketCreate, List.map_append]
    simp only [List.map_cons, List.map_nil]
    rw [List.nodup_append]
    exact ⟨hnd, List.nodup_singleton _, by simpa using fun h => hfresh h⟩

/-- C5 witness: on the seed store with the clock value 100, the edit, rate
and create operations keep or extend the id sequence as stated, and since
"100" is not among the seed ids the created id keeps the ids distinct. -/
theorem ticket_ids_stable_witness :
    ((saveTicketEdit "1" "X" "Y" Status.Created seedTickets).map
      (fun t => t.id) = seedTickets.map (fun t => t.id)) ∧
    ((saveTicketCreate 100 "A" "B" Status.Created seedTickets).map
      (fun t => t.id) = seedTickets.map (fun t => t.id) ++ ["100"]) ∧
    ((saveTicketCreate 100 "A" "B" Status.Created seedTickets).map
      (fun t => t.id)).Nodup := by
  have h := ticket_ids_stable "1" "X" "Y" Status.Created 3 100 seedTickets
  exact ⟨h.1, h.2.2.2.1, h.2.2.2.2 (by decide) (by decide)⟩

/-- A rate call is guarded when every ticket carrying the target id has
status Completed: exactly the situation in which the `TicketItem` view
renders the star control that invokes `updateRating`. All other operations
are guarded unconditionally. -/
def rateGuarded : StoreOp → List Ticket → Prop
  | StoreOp.rate id _, tickets =>
      ∀ t ∈ tickets, t.id = id → t.status = Status.Completed
  | _, _ => True

/-- A sequence of operations, each guarded in the state where it runs. -/
inductive GuardedSeq : List StoreOp → List Ticket → Prop where
  | nil (ts : List Ticket) : GuardedSeq [] ts
  | cons (op : StoreOp) (ops : List StoreOp) (ts : List Ticket) :
      rateGuarded op ts → GuardedSeq ops (applyOp op ts) →
      GuardedSeq (op :: ops) ts

theorem applyOp_preserves_invariant (op : StoreOp) (ts : List Ticket)
    (hinv : storeInvariant ts) (hg : rateGuarded op ts) :
    storeInvariant (applyOp op ts) := by
  cases op with
  | create now title description st =>
      intro t ht
      have ht2 : t ∈ ts ∨ t =
          { id := toString now, title := title,
            description := description, status := st, rating := none } := by
        simpa [applyOp, saveTicketCreate] using ht
      rcases ht2 with h1 | h1
      · exact hinv t h1
      · subst h1
        intro hr
        simp at hr
  | update id title description st =>
      intro t ht
      obtain ⟨u, hu, rfl⟩ :=
        List.mem_map.mp (by simpa [applyOp, saveTicketEdit] using ht)
      by_cases h : u.id = id
      · by_cases hst : st = Status.Completed
        · simp [h, hst]
        · simp [h, hst]
      · simpa [h] using hinv u hu
  | del id =>
      intro t ht
      have ht2 : t ∈ ts ∧ ¬ t.id = id := by
        simpa [applyOp, deleteTicket] using ht
      exact hinv t ht2.1
  | rate id v =>
      intro t ht
      obtain ⟨u, hu, rfl⟩ :=
        List.mem_map.mp (by simpa [applyOp, updateRating] using ht)
      by_cases h : u.id = id
      · simpa [h] using hg u hu h
      · simpa [h] using hinv u hu

theorem applyOps_guarded_invariant (ops : List StoreOp) (ts : List Ticket)
    (hinv : storeInvariant ts) (hg : GuardedSeq ops ts) (n : Nat) :
    storeInvariant (applyOps (ops.take n) ts) := by
  induction ops generalizing ts n with
  | nil =>
      simpa [applyOps, List.take_nil] using hinv
  | cons op ops ih =>
      cases hg with
      | cons _ _ _ hgop hgrest =>
        cases n with
        | zero => simpa [applyOps] using hinv
        | succ m =>
            have : applyOps ((op :: ops).take (m + 1)) ts =
                applyOps (ops.take m) (applyOp op ts) := by
              simp [applyOps, List.take_succ_cons]
            rw [this]
            exact ih (applyOp op ts)
              (applyOp_preserves_invariant op ts hinv hgop) hgrest m

/-- C1 amended: starting from the seed state, for every sequence of
create/update/delete/rate operations in which each rate call targets an id
whose matching tickets are all Completed at the moment of the call (the
only rate calls the UI can issue), after each operation every ticket with a
present rating has status Completed. An unguarded rate breaks the
invariant, as the counterexample shows. -/
theorem seed_guarded_invariant (ops : List StoreOp)
    (hg : GuardedSeq ops seedTickets) (n : Nat) :
    storeInvariant (applyOps (ops.take n) seedTickets) :=
  applyOps_guarded_invariant ops seedTickets (by decide) hg n

/-- C1 witness: the guarded sequence rate("3", 5) from the seed state (the
seed ticket "3" is Completed) keeps the invariant after the call. -/
theorem seed_guarded_invariant_witness :
    storeInvariant (applyOps ([StoreOp.rate "3" 5].take 1) seedTickets) :=
  seed_guarded_invariant [StoreOp.rate "3" 5]
    (GuardedSeq.cons _ _ _
      (by decide :
        ∀ t ∈ seedTickets, t.id = "3" → t.status = Status.Completed)
      (GuardedSeq.nil _)) 1

/-- C1 counterexample: the single rate("2", 3) call from the seed state
gives ticket "2" a rating while its status is UnderAssistance, so the
invariant does not hold after every rate call. -/
theorem invariant_fails_on_unguarded_rate :
    ¬ storeInvariant (applyOps [StoreOp.rate "2" 3] seedTickets) := by
  decide
